import Mathlib

/-!
Verification of the check_postgresql nagios plugin (src/main.rs) against its
specification.  The program is shallowly embedded below: each Rust item is
translated into a Lean definition (fallible steps become Option/Except,
machine integers become Int with explicit range reasoning, the diverging
process-exit becomes an explicit Outcome value).
-/

/- ## Status model (Rust: enum StatusType, struct Status, impl Display, exit_nagios) -/

inductive StatusType where
  | OK
  | WARNING
  | CRITICAL
  | UNKNOWN
deriving DecidableEq, Repr

/-- The four severity names used on the wire (the spec calls them SEVERITY_NAME). -/
def severityName : StatusType → String
  | StatusType.OK => "OK"
  | StatusType.WARNING => "WARNING"
  | StatusType.CRITICAL => "CRITICAL"
  | StatusType.UNKNOWN => "UNKNOWN"

/-- Rust: impl Display for Status.  Each arm formats the line written by
print in exit_nagios; print appends nothing (in particular no newline), so
this string is the entire stdout of the process. -/
def statusLine : StatusType → String → String
  | StatusType.OK, d => "OK|" ++ d
  | StatusType.WARNING, d => "WARNING|" ++ d
  | StatusType.CRITICAL, d => "CRITICAL|" ++ d
  | StatusType.UNKNOWN, d => "UNKNOWN|" ++ d

/-- Rust: the return_value match inside exit_nagios. -/
def returnValue : StatusType → Int
  | StatusType.OK => 0
  | StatusType.WARNING => 1
  | StatusType.CRITICAL => 2
  | StatusType.UNKNOWN => 3

/-- The observable end of the process: either a normal nagios exit carrying
the full stdout text and the exit code, or an abnormal Rust panic. -/
inductive Outcome where
  | exited (out : String) (code : Int)
  | panicked
deriving DecidableEq, Repr

/-- Rust: fn exit_nagios (prints the Status and exits with the mapped code). -/
def exit_nagios (t : StatusType) (description : String) : Outcome :=
  Outcome.exited (statusLine t description) (returnValue t)

/- ## Row evaluator (Rust: the two threshold scan loops in main, lines 190-196) -/

/-- One scan loop: for i in 0..thresh.len, the first index with
thresh[i] <= row[i] sets the status and breaks; observably this is just
whether any index triggers. -/
def anyTrigger (thresh row : List Int) : Bool :=
  (List.range thresh.length).any fun i => decide (thresh.getD i 0 ≤ row.getD i 0)

/-- Rust main, lines 190-196: status starts OK, the warning scan may set
WARNING, then the critical scan may overwrite with CRITICAL. -/
def rowStatus (vec_warn vec_crit row : List Int) : StatusType :=
  let status := StatusType.OK
  let status := if anyTrigger vec_warn row then StatusType.WARNING else status
  let status := if anyTrigger vec_crit row then StatusType.CRITICAL else status
  status

/- ## Description renderer (Rust main, lines 199-206) -/

/-- Rust main, lines 199-206, translated exactly as written: the closing
parenthesis is appended inside the per-column loop, after the optional
comma, on every iteration. -/
def renderDescription (row : List Int) : String :=
  (List.range row.length).foldl
    (fun description j =>
      let description := description ++ toString (row.getD j 0)
      let description := if j ≠ row.length - 1 then description ++ "," else description
      description ++ ")")
    "Result:("

/- ## Per-row processing and the row loop (Rust main, lines 186-208) -/

/-- The body of the for loop over rows: width check, then evaluate and exit. -/
def processRow (vec_warn vec_crit row : List Int) : Outcome :=
  if row.length ≠ vec_warn.length then
    exit_nagios StatusType.UNKNOWN "Size of result set and integer array need to match"
  else
    exit_nagios (rowStatus vec_warn vec_crit row) (renderDescription row)

/-- The for loop over rows.  Every body ends in exit_nagios, which
terminates the process, so only the first row is ever processed; a loop
over an empty list falls out of main, which returns normally (exit code 0,
nothing printed) — unreachable in context because the empty row set is
rejected earlier. -/
def rowLoop (vec_warn vec_crit : List Int) : List (List Int) → Outcome
  | [] => Outcome.exited "" 0
  | row :: _ => processRow vec_warn vec_crit row

/- ## Threshold parsing (Rust main, lines 131-147) -/

/-- Rust i64::from_str: optional sign, at least one decimal digit, value
within the i64 range; anything else is an error. -/
def parseI64 (s : String) : Option Int :=
  match s.toList with
  | [] => none
  | c :: cs =>
    let sign : Int := if c = '-' then -1 else 1
    let digits : List Char := if c = '-' ∨ c = '+' then cs else c :: cs
    if digits = [] then none
    else if digits.all Char.isDigit then
      let n : Nat := digits.foldl (fun acc d => acc * 10 + (d.toNat - 48)) 0
      let v : Int := sign * (n : Int)
      if -(2 ^ 63) ≤ v ∧ v < 2 ^ 63 then some v else none
    else none

/-- Rust str::split at a comma: the substrings between commas, in order,
keeping empty pieces (splitting the empty string gives one empty piece). -/
def splitOnComma : List Char → List (List Char)
  | [] => [[]]
  | c :: rest =>
    match splitOnComma rest with
    | [] => [[]]
    | piece :: pieces =>
      if c = ',' then [] :: piece :: pieces else (c :: piece) :: pieces

/-- Rust main, lines 138 and 144: split the option string on commas and push
each parsed i64; a token that fails to parse hits panic, modeled as none. -/
def parseThresholds (s : String) : Option (List Int) :=
  (splitOnComma s.toList).foldl
    (fun acc tok => do
      let v ← acc
      let t ← parseI64 (String.mk tok)
      pure (v ++ [t]))
    (some [])

/-- Rust main, lines 137-141: the warning vector, defaulting to [1]. -/
def parsedWarn : Option String → Option (List Int)
  | some s => parseThresholds s
  | none => some [1]

/-- Rust main, lines 143-147: the critical vector, defaulting to [2]. -/
def parsedCrit : Option String → Option (List Int)
  | some s => parseThresholds s
  | none => some [2]

/- ## Driver (Rust main, lines 149-208) -/

/-- Rust main after the vector-length gate: connect, query, empty-set check,
row loop.  The connection and the query are the external collaborators; an
error from either is reported verbatim as UNKNOWN. -/
def afterVectors (vec_warn vec_crit : List Int) (connResult : Except String Unit)
    (queryResult : Except String (List (List Int))) : Outcome :=
  match connResult with
  | Except.error e => exit_nagios StatusType.UNKNOWN e
  | Except.ok _ =>
    match queryResult with
    | Except.error e => exit_nagios StatusType.UNKNOWN e
    | Except.ok rows =>
      if rows.length = 0 then
        exit_nagios StatusType.UNKNOWN "Query did return empty row set"
      else
        rowLoop vec_warn vec_crit rows

/-- Rust fn main, from threshold parsing onward: parse both vectors
(panicking on a bad token), enforce equal lengths, then hand over to the
connection/query stages. -/
def checkMain (warnStr critStr : Option String) (connResult : Except String Unit)
    (queryResult : Except String (List (List Int))) : Outcome :=
  match parsedWarn warnStr with
  | none => Outcome.panicked
  | some vec_warn =>
    match parsedCrit critStr with
    | none => Outcome.panicked
    | some vec_crit =>
      if vec_warn.length ≠ vec_crit.length then
        exit_nagios StatusType.UNKNOWN "Size of integer arrays need to match"
      else
        afterVectors vec_warn vec_crit connResult queryResult

/- ## Numeric coercion adapter (Rust: struct Int64, impl FromSql, lines 37-56) -/

/-- The column type tags the match in from_sql distinguishes: the five named
postgres integer-family tags, and one constructor standing for every other
postgres type tag (the wildcard arm treats them all alike). -/
inductive PgType where
  | Char
  | Int2
  | Int4
  | Int8
  | Oid
  | other (tag : Nat)
deriving DecidableEq, Repr

/-- Native width in bytes of each tag's decoder (the wildcard arm reads 8). -/
def byteLen : PgType → Nat
  | PgType.Char => 1
  | PgType.Int2 => 2
  | PgType.Int4 => 4
  | PgType.Int8 => 8
  | PgType.Oid => 4
  | PgType.other _ => 8

/-- Big-endian value of a byte list (each entry reduced mod 256). -/
def beNat (bs : List Nat) : Nat :=
  bs.foldl (fun acc b => acc * 256 + b % 256) 0

/-- byteorder read of an n-byte big-endian unsigned value from the raw
buffer; fails (UnexpectedEof, surfaced through try) when too short. -/
def readBE (n : Nat) (raw : List Nat) : Option Nat :=
  if raw.length < n then none else some (beNat (raw.take n))

/-- Reinterpret an unsigned width-byte value as the two's-complement signed
value of the same width (the `as i64` widening of read_i8/i16/i32/i64). -/
def toSigned (width : Nat) (v : Nat) : Int :=
  if v < 2 ^ (8 * width - 1) then (v : Int) else (v : Int) - 2 ^ (8 * width)

/-- Rust: Int64::from_sql, lines 38-48.  Each arm decodes the raw bytes at
the tag's native width; the signed reads sign-extend to i64, the Oid read
zero-extends, and the wildcard arm reads a signed 8-byte value. -/
def from_sql (ty : PgType) (raw : List Nat) : Option Int :=
  match ty with
  | PgType.Char => (readBE 1 raw).map (toSigned 1)
  | PgType.Int2 => (readBE 2 raw).map (toSigned 2)
  | PgType.Int4 => (readBE 4 raw).map (toSigned 4)
  | PgType.Int8 => (readBE 8 raw).map (toSigned 8)
  | PgType.Oid => (readBE 4 raw).map (fun v => (v : Int))
  | PgType.other _ => (readBE 8 raw).map (toSigned 8)

/-- Rust: Int64::accepts, lines 50-55. -/
def accepts : PgType → Bool
  | PgType.Char => true
  | PgType.Int2 => true
  | PgType.Int4 => true
  | PgType.Int8 => true
  | PgType.Oid => true
  | PgType.other _ => false

/- ## Helper lemmas -/

/-- A scan loop triggers exactly when some index within the threshold vector
has threshold at most the row value. -/
theorem anyTrigger_iff (t r : List Int) :
    anyTrigger t r = true ↔ ∃ i, i < t.length ∧ t.getD i 0 ≤ r.getD i 0 := by
  simp [anyTrigger, List.any_eq_true, List.mem_range]

/-- The two sequential scans collapse to: critical trigger wins, then
warning trigger, else OK. -/
theorem rowStatus_eq (vw vc row : List Int) :
    rowStatus vw vc row =
      if anyTrigger vc row then StatusType.CRITICAL
      else if anyTrigger vw row then StatusType.WARNING
      else StatusType.OK := by
  unfold rowStatus
  by_cases hc : anyTrigger vc row <;> by_cases hw : anyTrigger vw row <;> simp [hc, hw]

theorem beNat_aux_lt (bs : List Nat) (acc : Nat) :
    List.foldl (fun a b => a * 256 + b % 256) acc bs < (acc + 1) * 256 ^ bs.length := by
  induction bs generalizing acc with
  | nil => simp
  | cons b bs ih =>
    simp only [List.foldl_cons, List.length_cons]
    have hb : b % 256 ≤ 255 := Nat.le_of_lt_succ (Nat.mod_lt b (by norm_num))
    have h1 : acc * 256 + b % 256 + 1 ≤ (acc + 1) * 256 := by nlinarith
    have h2 := ih (acc * 256 + b % 256)
    have h3 : (acc * 256 + b % 256 + 1) * 256 ^ bs.length ≤ ((acc + 1) * 256) * 256 ^ bs.length :=
      Nat.mul_le_mul_right _ h1
    have h4 : ((acc + 1) * 256) * 256 ^ bs.length = (acc + 1) * 256 ^ (bs.length + 1) := by ring
    omega

theorem beNat_lt (bs : List Nat) : beNat bs < 2 ^ (8 * bs.length) := by
  have h := beNat_aux_lt bs 0
  have h2 : (256 : Nat) ^ bs.length = 2 ^ (8 * bs.length) := by
    rw [show (256 : Nat) = 2 ^ 8 by norm_num, ← pow_mul]
  simpa [beNat, h2] using h

theorem readBE_eq (n : Nat) (raw : List Nat) (h : n ≤ raw.length) :
    readBE n raw = some (beNat (raw.take n)) := by
  simp [readBE, Nat.not_lt.mpr h]

theorem take_beNat_lt (n : Nat) (raw : List Nat) (h : n ≤ raw.length) :
    beNat (raw.take n) < 2 ^ (8 * n) := by
  have hb := beNat_lt (raw.take n)
  rwa [List.length_take, Nat.min_eq_left h] at hb

/-- Two's-complement reinterpretation: the result is congruent to the raw
unsigned value modulo 2^(8w) and lies in the signed width-w range. -/
theorem toSigned_spec (w : Nat) (hw : 0 < w) (u : Nat) (hu : u < 2 ^ (8 * w)) :
    toSigned w u % ((2 : Int) ^ (8 * w)) = (u : Int) ∧
    -((2 : Int) ^ (8 * w - 1)) ≤ toSigned w u ∧ toSigned w u < 2 ^ (8 * w - 1) := by
  have hk : 8 * w - 1 + 1 = 8 * w := by omega
  have h2 : (2 : Int) ^ (8 * w) = 2 * 2 ^ (8 * w - 1) := by
    calc (2 : Int) ^ (8 * w) = 2 ^ (8 * w - 1 + 1) := by rw [hk]
    _ = 2 ^ (8 * w - 1) * 2 := pow_succ 2 (8 * w - 1)
    _ = 2 * 2 ^ (8 * w - 1) := by ring
  have hu' : (u : Int) < 2 ^ (8 * w) := by exact_mod_cast hu
  have hpos : (0 : Int) < 2 ^ (8 * w - 1) := by positivity
  have hnn : (0 : Int) ≤ (u : Int) := Int.natCast_nonneg u
  unfold toSigned
  by_cases hc : u < 2 ^ (8 * w - 1)
  · rw [if_pos hc]
    have hc' : (u : Int) < 2 ^ (8 * w - 1) := by exact_mod_cast hc
    exact ⟨Int.emod_eq_of_lt hnn hu', by linarith, hc'⟩
  · rw [if_neg hc]
    have hc' : (2 : Int) ^ (8 * w - 1) ≤ (u : Int) := by exact_mod_cast Nat.not_lt.mp hc
    refine ⟨?_, by linarith, by linarith⟩
    rw [Int.emod_sub_cancel]
    exact Int.emod_eq_of_lt hnn hu'

/- ## Claim theorems -/

/-- Claim C1: for equal-length warning and critical vectors and a row of
matching width, the row evaluator yields CRITICAL iff some index reaches
the critical threshold (inclusively), WARNING iff some index reaches the
warning threshold and none reaches critical, and OK iff no index reaches
either threshold. -/
theorem c1_row_evaluator_severity (vw vc row : List Int)
    (hlen : vw.length = vc.length) (hrow : row.length = vw.length) :
    (rowStatus vw vc row = StatusType.CRITICAL ↔
      ∃ i, i < vc.length ∧ vc.getD i 0 ≤ row.getD i 0) ∧
    (rowStatus vw vc row = StatusType.WARNING ↔
      ((∃ i, i < vw.length ∧ vw.getD i 0 ≤ row.getD i 0) ∧
        ¬ ∃ i, i < vc.length ∧ vc.getD i 0 ≤ row.getD i 0)) ∧
    (rowStatus vw vc row = StatusType.OK ↔
      ((¬ ∃ i, i < vw.length ∧ vw.getD i 0 ≤ row.getD i 0) ∧
        ¬ ∃ i, i < vc.length ∧ vc.getD i 0 ≤ row.getD i 0)) := by
  have hw := anyTrigger_iff vw row
  have hc := anyTrigger_iff vc row
  rw [rowStatus_eq]
  cases hwb : anyTrigger vw row <;> cases hcb : anyTrigger vc row <;>
    rw [hwb] at hw <;> rw [hcb] at hc <;> simp_all

theorem c1_row_evaluator_severity_witness :
    ([1] : List Int).length = ([2] : List Int).length ∧
    ([0] : List Int).length = ([1] : List Int).length ∧
    ((rowStatus [1] [2] [0] = StatusType.CRITICAL ↔
      ∃ i, i < ([2] : List Int).length ∧ ([2] : List Int).getD i 0 ≤ ([0] : List Int).getD i 0) ∧
    (rowStatus [1] [2] [0] = StatusType.WARNING ↔
      ((∃ i, i < ([1] : List Int).length ∧ ([1] : List Int).getD i 0 ≤ ([0] : List Int).getD i 0) ∧
        ¬ ∃ i, i < ([2] : List Int).length ∧ ([2] : List Int).getD i 0 ≤ ([0] : List Int).getD i 0)) ∧
    (rowStatus [1] [2] [0] = StatusType.OK ↔
      ((¬ ∃ i, i < ([1] : List Int).length ∧ ([1] : List Int).getD i 0 ≤ ([0] : List Int).getD i 0) ∧
        ¬ ∃ i, i < ([2] : List Int).length ∧ ([2] : List Int).getD i 0 ≤ ([0] : List Int).getD i 0))) :=
  ⟨rfl, rfl, c1_row_evaluator_severity [1] [2] [0] rfl rfl⟩

/-- Claim C2, checked at the inputs the claim names: the renderer as
written appends the closing parenthesis inside the per-column loop, so the
two-value row [3,7] renders as "Result:(3,)7)" and not the claimed
"Result:(3,7)"; the single-value row [5] does render as "Result:(5)". -/
theorem c2_render_at_failing_input :
    renderDescription [3, 7] = "Result:(3,)7)" ∧
    renderDescription [3, 7] ≠ "Result:(3,7)" ∧
    renderDescription [5] = "Result:(5)" := by
  refine ⟨rfl, ?_, rfl⟩
  decide

/-- Claim C3, checked at a failing input: with the unparsable warning token
"abc" the program hits panic while parsing the configuration, before
looking at the critical string, the connection or the query; it terminates
abnormally and emits no report of any kind. -/
theorem c3_unparsable_token_panics (critStr : Option String)
    (connResult : Except String Unit) (queryResult : Except String (List (List Int))) :
    checkMain (some "abc") critStr connResult queryResult = Outcome.panicked ∧
    ∀ out code, checkMain (some "abc") critStr connResult queryResult ≠ Outcome.exited out code := by
  have h : parsedWarn (some "abc") = none := rfl
  refine ⟨by simp [checkMain, h], ?_⟩
  intro out code
  simp [checkMain, h]

/-- Claim C4: whenever the two parsed vectors differ in length, the
program reports UNKNOWN with exactly the line
UNKNOWN|Size of integer arrays need to match and exit code 3, whatever the
connection and the query would have produced. -/
theorem c4_mismatched_vector_lengths (warnStr critStr : Option String)
    (vw vc : List Int) (hw : parsedWarn warnStr = some vw)
    (hc : parsedCrit critStr = some vc) (hne : vw.length ≠ vc.length)
    (connResult : Except String Unit) (queryResult : Except String (List (List Int))) :
    checkMain warnStr critStr connResult queryResult =
      Outcome.exited "UNKNOWN|Size of integer arrays need to match" 3 := by
  have h : checkMain warnStr critStr connResult queryResult =
      exit_nagios StatusType.UNKNOWN "Size of integer arrays need to match" := by
    simp [checkMain, hw, hc, hne]
  rw [h]
  rfl

theorem c4_mismatched_vector_lengths_witness :
    parsedWarn (some "1,2") = some [1, 2] ∧ parsedCrit (some "1") = some [1] ∧
    ([1, 2] : List Int).length ≠ ([1] : List Int).length ∧
    checkMain (some "1,2") (some "1") (Except.ok ()) (Except.ok [[7, 7]]) =
      Outcome.exited "UNKNOWN|Size of integer arrays need to match" 3 :=
  ⟨rfl, rfl, by decide,
    c4_mismatched_vector_lengths (some "1,2") (some "1") [1, 2] [1] rfl rfl (by decide)
      (Except.ok ()) (Except.ok [[7, 7]])⟩

/-- Claim C5: a row whose width differs from the warning-vector length is
rejected with exactly the line
UNKNOWN|Size of result set and integer array need to match and exit code
3, whatever the row's values are — the width check precedes every
threshold comparison of that row. -/
theorem c5_row_width_mismatch (vw vc row : List Int) (h : row.length ≠ vw.length) :
    processRow vw vc row =
      Outcome.exited "UNKNOWN|Size of result set and integer array need to match" 3 := by
  have heq : processRow vw vc row =
      exit_nagios StatusType.UNKNOWN "Size of result set and integer array need to match" := by
    simp [processRow, h]
  rw [heq]
  rfl

theorem c5_row_width_mismatch_witness :
    ([9, 9] : List Int).length ≠ ([1] : List Int).length ∧
    processRow [1] [2] [9, 9] =
      Outcome.exited "UNKNOWN|Size of result set and integer array need to match" 3 :=
  ⟨by decide, c5_row_width_mismatch [1] [2] [9, 9] (by decide)⟩

/-- Claim C6: a successful query returning zero rows is reported as
exactly the line UNKNOWN|Query did return empty row set with exit code 3. -/
theorem c6_empty_row_set (warnStr critStr : Option String) (vw vc : List Int)
    (hw : parsedWarn warnStr = some vw) (hc : parsedCrit critStr = some vc)
    (hlen : vw.length = vc.length) :
    checkMain warnStr critStr (Except.ok ()) (Except.ok []) =
      Outcome.exited "UNKNOWN|Query did return empty row set" 3 := by
  have h : checkMain warnStr critStr (Except.ok ()) (Except.ok []) =
      exit_nagios StatusType.UNKNOWN "Query did return empty row set" := by
    simp [checkMain, hw, hc, hlen, afterVectors]
  rw [h]
  rfl

theorem c6_empty_row_set_witness :
    parsedWarn none = some [1] ∧ parsedCrit none = some [2] ∧
    ([1] : List Int).length = ([2] : List Int).length ∧
    checkMain none none (Except.ok ()) (Except.ok []) =
      Outcome.exited "UNKNOWN|Query did return empty row set" 3 :=
  ⟨rfl, rfl, rfl, c6_empty_row_set none none [1] [2] rfl rfl rfl⟩

/-- Claim C7: the report line is always the severity name, a pipe and the
description with nothing added (in particular no trailing newline, since
the string printed is exactly this one), and the exit codes are OK to 0,
WARNING to 1, CRITICAL to 2, UNKNOWN to 3. -/
theorem c7_report_line_and_exit_codes (st : StatusType) (d : String) :
    statusLine st d = severityName st ++ "|" ++ d ∧
    returnValue StatusType.OK = 0 ∧ returnValue StatusType.WARNING = 1 ∧
    returnValue StatusType.CRITICAL = 2 ∧ returnValue StatusType.UNKNOWN = 3 := by
  refine ⟨?_, rfl, rfl, rfl, rfl⟩
  cases st <;> rfl

/-- Claim C8: on a multi-row result the emitted report is determined by
the first row alone — the outcome with any tail of further rows equals the
outcome with the first row only, because the loop body always ends in the
process-terminating exit. -/
theorem c8_first_row_determines_report (warnStr critStr : Option String)
    (connResult : Except String Unit) (row : List Int) (rest : List (List Int)) :
    checkMain warnStr critStr connResult (Except.ok (row :: rest)) =
      checkMain warnStr critStr connResult (Except.ok [row]) := by
  unfold checkMain
  cases parsedWarn warnStr with
  | none => rfl
  | some vw =>
    cases parsedCrit critStr with
    | none => rfl
    | some vc =>
      dsimp only
      by_cases h : vw.length ≠ vc.length
      · rw [if_pos h, if_pos h]
      · rw [if_neg h, if_neg h]
        cases connResult with
        | error e => rfl
        | ok u => rfl

/-- Claim C9: every accepted tag decodes the raw bytes as a big-endian
integer of its native width and widens it to 64 bits with no loss: the
returned value is congruent to the unsigned big-endian value of the first
width bytes modulo 2^(8 width), lies in the signed range of its width for
the four signed tags and in the unsigned 32-bit range for Oid, and in
every case fits the i64 range. -/
theorem c9_accepted_type_coercion (ty : PgType) (raw : List Nat)
    (hacc : accepts ty = true) (hlen : byteLen ty ≤ raw.length) :
    ∃ v : Int,
      from_sql ty raw = some v ∧
      v % ((2 : Int) ^ (8 * byteLen ty)) = (beNat (raw.take (byteLen ty)) : Int) ∧
      (if ty = PgType.Oid
        then 0 ≤ v ∧ v < 2 ^ 32
        else -((2 : Int) ^ (8 * byteLen ty - 1)) ≤ v ∧ v < 2 ^ (8 * byteLen ty - 1)) ∧
      (-((2 : Int) ^ 63) ≤ v ∧ v < 2 ^ 63) := by
  cases ty with
  | Char =>
    simp only [byteLen] at hlen ⊢
    have hu := take_beNat_lt 1 raw hlen
    have hs := toSigned_spec 1 (by norm_num) (beNat (raw.take 1)) hu
    refine ⟨toSigned 1 (beNat (raw.take 1)),
      by simp [from_sql, readBE_eq 1 raw hlen], hs.1, ?_, ?_⟩
    · rw [if_neg (by decide)]
      exact hs.2
    · have h1 := hs.2.1
      have h2 := hs.2.2
      norm_num at h1 h2 ⊢
      omega
  | Int2 =>
    simp only [byteLen] at hlen ⊢
    have hu := take_beNat_lt 2 raw hlen
    have hs := toSigned_spec 2 (by norm_num) (beNat (raw.take 2)) hu
    refine ⟨toSigned 2 (beNat (raw.take 2)),
      by simp [from_sql, readBE_eq 2 raw hlen], hs.1, ?_, ?_⟩
    · rw [if_neg (by decide)]
      exact hs.2
    · have h1 := hs.2.1
      have h2 := hs.2.2
      norm_num at h1 h2 ⊢
      omega
  | Int4 =>
    simp only [byteLen] at hlen ⊢
    have hu := take_beNat_lt 4 raw hlen
    have hs := toSigned_spec 4 (by norm_num) (beNat (raw.take 4)) hu
    refine ⟨toSigned 4 (beNat (raw.take 4)),
      by simp [from_sql, readBE_eq 4 raw hlen], hs.1, ?_, ?_⟩
    · rw [if_neg (by decide)]
      exact hs.2
    · have h1 := hs.2.1
      have h2 := hs.2.2
      norm_num at h1 h2 ⊢
      omega
  | Int8 =>
    simp only [byteLen] at hlen ⊢
    have hu := take_beNat_lt 8 raw hlen
    have hs := toSigned_spec 8 (by norm_num) (beNat (raw.take 8)) hu
    refine ⟨toSigned 8 (beNat (raw.take 8)),
      by simp [from_sql, readBE_eq 8 raw hlen], hs.1, ?_, ?_⟩
    · rw [if_neg (by decide)]
      exact hs.2
    · have h1 := hs.2.1
      have h2 := hs.2.2
      norm_num at h1 h2 ⊢
      omega
  | Oid =>
    simp only [byteLen] at hlen ⊢
    have hu := take_beNat_lt 4 raw hlen
    have hu' : (beNat (raw.take 4) : Int) < 2 ^ (8 * 4) := by exact_mod_cast hu
    have hnn : (0 : Int) ≤ (beNat (raw.take 4) : Int) := Int.natCast_nonneg _
    refine ⟨(beNat (raw.take 4) : Int),
      by simp [from_sql, readBE_eq 4 raw hlen], Int.emod_eq_of_lt hnn hu', ?_, ?_⟩
    · simp only [if_true]
      norm_num at hu' ⊢
      omega
    · norm_num at hu' ⊢
      omega
  | other n => simp [accepts] at hacc

theorem c9_accepted_type_coercion_witness :
    accepts PgType.Int2 = true ∧ byteLen PgType.Int2 ≤ ([255, 254] : List Nat).length ∧
    ∃ v : Int,
      from_sql PgType.Int2 [255, 254] = some v ∧
      v % ((2 : Int) ^ (8 * byteLen PgType.Int2)) =
        (beNat (([255, 254] : List Nat).take (byteLen PgType.Int2)) : Int) ∧
      (if PgType.Int2 = PgType.Oid
        then 0 ≤ v ∧ v < 2 ^ 32
        else -((2 : Int) ^ (8 * byteLen PgType.Int2 - 1)) ≤ v ∧
          v < 2 ^ (8 * byteLen PgType.Int2 - 1)) ∧
      (-((2 : Int) ^ 63) ≤ v ∧ v < 2 ^ 63) :=
  ⟨rfl, by decide, c9_accepted_type_coercion PgType.Int2 [255, 254] rfl (by decide)⟩

/-- Claim C10: the from_sql fallthrough arm does not reject an unrecognized
tag — it decodes exactly like the 8-byte signed arm and succeeds on any
sufficiently long buffer — while the separate accepts predicate is false on
every such tag and true precisely on the five recognized tags. -/
theorem c10_fallthrough_and_accepts (n : Nat) (raw : List Nat) (h : 8 ≤ raw.length) :
    from_sql (PgType.other n) raw = from_sql PgType.Int8 raw ∧
    (∃ v : Int, from_sql (PgType.other n) raw = some v) ∧
    accepts (PgType.other n) = false ∧
    ∀ ty : PgType, accepts ty = true ↔
      (ty = PgType.Char ∨ ty = PgType.Int2 ∨ ty = PgType.Int4 ∨ ty = PgType.Int8 ∨
        ty = PgType.Oid) := by
  refine ⟨rfl, ⟨toSigned 8 (beNat (raw.take 8)), by simp [from_sql, readBE_eq 8 raw h]⟩, rfl, ?_⟩
  intro ty
  cases ty <;> simp [accepts]

theorem c10_fallthrough_and_accepts_witness :
    8 ≤ ([0, 0, 0, 0, 0, 0, 0, 42] : List Nat).length ∧
    (from_sql (PgType.other 17) [0, 0, 0, 0, 0, 0, 0, 42] =
      from_sql PgType.Int8 [0, 0, 0, 0, 0, 0, 0, 42] ∧
    (∃ v : Int, from_sql (PgType.other 17) [0, 0, 0, 0, 0, 0, 0, 42] = some v) ∧
    accepts (PgType.other 17) = false ∧
    ∀ ty : PgType, accepts ty = true ↔
      (ty = PgType.Char ∨ ty = PgType.Int2 ∨ ty = PgType.Int4 ∨ ty = PgType.Int8 ∨
        ty = PgType.Oid)) :=
  ⟨by decide, c10_fallthrough_and_accepts 17 [0, 0, 0, 0, 0, 0, 0, 42] (by decide)⟩
